import Mathlib

/-!
Verification of `proxmoxtf/resource/file.go` (terraform-provider-proxmox).

The Go source is embedded shallowly: each Lean definition translates one Go
function (or one contiguous block of one) and is named after it.  Machine
integers are `Nat`/`Int`; fallible Go code returns `Except`/`Option`;
the Terraform SDK state (`*schema.ResourceData`) is passed explicitly.
-/

set_option maxRecDepth 4000

/-! ## Diagnostics (`diag.Diagnostics` of the Terraform plugin SDK) -/

/-- One entry of a `diag.Diagnostics` slice: an error (`diag.Error`) or a
warning (`diag.Warning`) with its summary text. -/
structure Diagnostic where
  isError : Bool
  summary : String
deriving Repr, DecidableEq

/-- A `diag.Error` severity diagnostic, as produced by `diag.Errorf` /
`diag.FromErr`. -/
def errDiag (s : String) : Diagnostic := ⟨true, s⟩

/-- A `diag.Warning` severity diagnostic. -/
def warnDiag (s : String) : Diagnostic := ⟨false, s⟩

/-- `diag.Diagnostics.HasError`: whether any accumulated diagnostic is an
error. -/
def hasError (ds : List Diagnostic) : Bool := ds.any (·.isError)

/-! ## Go standard-library string helpers used by `file.go` -/

/-- Locate the first occurrence of character `c` in a character list,
returning the parts before and after it.  This is the engine of
`strings.SplitN(s, sep, 2)` for a one-character separator. -/
def strFindChar (c : Char) : List Char → Option (List Char × List Char)
  | [] => none
  | x :: xs =>
    if x = c then some ([], xs)
    else
      match strFindChar c xs with
      | some (l, r) => some (x :: l, r)
      | none => none

/-- Go `strings.SplitN(s, c, 2)` for a single-character separator `c`:
one element when `c` does not occur, otherwise the parts before and after
the first occurrence. -/
def goSplitN2 (s : String) (c : Char) : List String :=
  match strFindChar c s.data with
  | none => [s]
  | some (l, r) => [⟨l⟩, ⟨r⟩]

/-! ## `fileVolumeID` (file.go lines 266-300) -/

/-- The three-part volume identity `datastore_id:content_type/file_name`
(struct `fileVolumeID` of file.go). -/
structure fileVolumeID where
  datastoreID : String
  contentType : String
  fileName : String
deriving Repr, DecidableEq

/-- `fileVolumeID.String` (file.go line 272): canonical formatting
`datastore_id:content_type/file_name`. -/
def fileVolumeID.String (v : fileVolumeID) : String :=
  v.datastoreID ++ ":" ++ v.contentType ++ "/" ++ v.fileName

/-- The error text produced by `fileParseVolumeID` (file.go lines 281, 289):
it names both the offending input and the expected format. -/
def volumeIDFormatError (id : String) : String :=
  s!"unexpected format of ID ({id}), expected datastore_id:content_type/file_name"

/-- `fileParseVolumeID` (file.go lines 277-300): split on the first `:`,
then split the remainder on the first `/`; each `SplitN` must yield two
non-empty parts, otherwise the format error is returned. -/
def fileParseVolumeID (id : String) : Except String fileVolumeID :=
  match goSplitN2 id ':' with
  | [p0, p1] =>
    if p0 = "" || p1 = "" then .error (volumeIDFormatError id)
    else
      match goSplitN2 p1 '/' with
      | [q0, q1] =>
        if q0 = "" || q1 = "" then .error (volumeIDFormatError id)
        else .ok ⟨p0, q0, q1⟩
      | _ => .error (volumeIDFormatError id)
  | _ => .error (volumeIDFormatError id)

/-! ### Round-trip (claim C7) -/

theorem strFindChar_append_first (c : Char) (l r : List Char) (hl : c ∉ l) :
    strFindChar c (l ++ c :: r) = some (l, r) := by
  induction l with
  | nil => simp [strFindChar]
  | cons x xs ih =>
    have hx : x ≠ c := by
      intro h
      exact hl (h ▸ List.mem_cons_self x xs)
    have hxs : c ∉ xs := fun h => hl (List.mem_cons_of_mem _ h)
    simp [strFindChar, hx, ih hxs]

theorem string_mk_ne_empty {l : List Char} (h : l ≠ []) : (⟨l⟩ : String) ≠ "" := by
  intro he
  exact h (congrArg String.data he)

/-- Claim C7: for a `fileVolumeID` whose three fields are non-empty and
contain neither `:` nor `/`, parsing the formatted canonical string
returns exactly the original identity. -/
theorem c7_volume_id_roundtrip (v : fileVolumeID)
    (hd : v.datastoreID ≠ "") (hc : v.contentType ≠ "") (hn : v.fileName ≠ "")
    (hd1 : ':' ∉ v.datastoreID.data) (hd2 : '/' ∉ v.datastoreID.data)
    (hc1 : ':' ∉ v.contentType.data) (hc2 : '/' ∉ v.contentType.data)
    (hn1 : ':' ∉ v.fileName.data) (hn2 : '/' ∉ v.fileName.data) :
    fileParseVolumeID v.String = .ok v := by
  obtain ⟨d, c, n⟩ := v
  have hdata : (fileVolumeID.String ⟨d, c, n⟩).data
      = d.data ++ ':' :: (c.data ++ '/' :: n.data) := by
    simp [fileVolumeID.String, String.data_append]
  have h1 : goSplitN2 (fileVolumeID.String ⟨d, c, n⟩) ':'
      = [d, ⟨c.data ++ '/' :: n.data⟩] := by
    unfold goSplitN2
    rw [hdata, strFindChar_append_first ':' d.data _ hd1]
  have h2 : goSplitN2 (⟨c.data ++ '/' :: n.data⟩ : String) '/' = [c, n] := by
    unfold goSplitN2
    rw [show (⟨c.data ++ '/' :: n.data⟩ : String).data = c.data ++ '/' :: n.data from rfl,
      strFindChar_append_first '/' c.data n.data hc2]
  have hmid : (⟨c.data ++ '/' :: n.data⟩ : String) ≠ "" := by
    apply string_mk_ne_empty
    intro h
    cases c.data <;> simp_all
  unfold fileParseVolumeID
  rw [h1]
  simp only [hd, hmid, hc, hn, h2]
  simp [hd, hmid, hc, hn]

/-- Closed witness for claim C7 at a concrete identity. -/
theorem c7_volume_id_roundtrip_witness :
    fileParseVolumeID (fileVolumeID.String ⟨"local", "iso", "debian.iso"⟩)
      = .ok ⟨"local", "iso", "debian.iso"⟩ :=
  c7_volume_id_roundtrip ⟨"local", "iso", "debian.iso"⟩
    (by decide) (by decide) (by decide) (by decide) (by decide)
    (by decide) (by decide) (by decide) (by decide)

/-- Claim C8: each of the malformed inputs `""`, `"a"`, `"a:"`, `"a:b"`,
`"a:b/"`, `":/x"` is rejected by `fileParseVolumeID` with the error that
names the expected format and the offending input. -/
theorem c8_parse_rejects_malformed :
    fileParseVolumeID "" = .error (volumeIDFormatError "")
  ∧ fileParseVolumeID "a" = .error (volumeIDFormatError "a")
  ∧ fileParseVolumeID "a:" = .error (volumeIDFormatError "a:")
  ∧ fileParseVolumeID "a:b" = .error (volumeIDFormatError "a:b")
  ∧ fileParseVolumeID "a:b/" = .error (volumeIDFormatError "a:b/")
  ∧ fileParseVolumeID ":/x" = .error (volumeIDFormatError ":/x")
  ∧ volumeIDFormatError "a:b"
      = "unexpected format of ID (a:b), expected datastore_id:content_type/file_name" := by
  refine ⟨rfl, rfl, rfl, rfl, rfl, rfl, rfl⟩

/-! ## SHA-256 (Go `crypto/sha256`, FIPS 180-4)

`fileCreate` hashes the materialized source bytes with `crypto/sha256` and
renders the digest with `fmt.Sprintf("%x", ...)`, which produces lowercase
hex.  Bytes are `Nat`s below 256; 32-bit words are `Nat`s reduced modulo
`2 ^ 32` explicitly. -/

namespace SHA256

def w32 (x : Nat) : Nat := x % 4294967296

def rotr (n x : Nat) : Nat := (x / 2 ^ n) + (x % 2 ^ n) * 2 ^ (32 - n)

def shr (n x : Nat) : Nat := x / 2 ^ n

def xor3 (a b c : Nat) : Nat := Nat.xor (Nat.xor a b) c

def bigSigma0 (x : Nat) : Nat := xor3 (rotr 2 x) (rotr 13 x) (rotr 22 x)

def bigSigma1 (x : Nat) : Nat := xor3 (rotr 6 x) (rotr 11 x) (rotr 25 x)

def smallSigma0 (x : Nat) : Nat := xor3 (rotr 7 x) (rotr 18 x) (shr 3 x)

def smallSigma1 (x : Nat) : Nat := xor3 (rotr 17 x) (rotr 19 x) (shr 10 x)

def ch (x y z : Nat) : Nat := Nat.xor (Nat.land x y) (Nat.land (4294967295 - x) z)

def maj (x y z : Nat) : Nat :=
  Nat.xor (Nat.xor (Nat.land x y) (Nat.land x z)) (Nat.land y z)

def roundConstants : List Nat :=
  [1116352408, 1899447441, 3049323471, 3921009573,
   961987163, 1508970993, 2453635748, 2870763221,
   3624381080, 310598401, 607225278, 1426881987,
   1925078388, 2162078206, 2614888103, 3248222580,
   3835390401, 4022224774, 264347078, 604807628,
   770255983, 1249150122, 1555081692, 1996064986,
   2554220882, 2821834349, 2952996808, 3210313671,
   3336571891, 3584528711, 113926993, 338241895,
   666307205, 773529912, 1294757372, 1396182291,
   1695183700, 1986661051, 2177026350, 2456956037,
   2730485921, 2820302411, 3259730800, 3345764771,
   3516065817, 3600352804, 4094571909, 275423344,
   430227734, 506948616, 659060556, 883997877,
   958139571, 1322822218, 1537002063, 1747873779,
   1955562222, 2024104815, 2227730452, 2361852424,
   2428436474, 2756734187, 3204031479, 3329325298]

def lenBytes (n : Nat) : List Nat :=
  [n / 2 ^ 56 % 256, n / 2 ^ 48 % 256, n / 2 ^ 40 % 256, n / 2 ^ 32 % 256,
   n / 2 ^ 24 % 256, n / 2 ^ 16 % 256, n / 2 ^ 8 % 256, n % 256]

def padBytes (msg : List Nat) : List Nat :=
  let L := msg.length
  let z := (120 - (L + 1) % 64) % 64
  msg ++ 128 :: List.replicate z 0 ++ lenBytes (8 * L)

def toWords : List Nat → List Nat
  | b0 :: b1 :: b2 :: b3 :: rest => (((b0 * 256 + b1) * 256 + b2) * 256 + b3) :: toWords rest
  | _ => []

def chunk64Aux : Nat → List Nat → List (List Nat)
  | 0, _ => []
  | _, [] => []
  | fuel + 1, x :: xs => (x :: xs.take 63) :: chunk64Aux fuel (xs.drop 63)

def chunk64 (l : List Nat) : List (List Nat) := chunk64Aux l.length l

def scheduleStep (w : List Nat) : List Nat :=
  let n := w.length
  let g (i : Nat) : Nat := w.getD (n - i) 0
  w ++ [w32 (smallSigma1 (g 2) + g 7 + smallSigma0 (g 15) + g 16)]

def extendSchedule : Nat → List Nat → List Nat
  | 0, w => w
  | k + 1, w => extendSchedule k (scheduleStep w)

def schedule (block : List Nat) : List Nat := extendSchedule 48 (toWords block)

structure Hash8 where
  a : Nat
  b : Nat
  c : Nat
  d : Nat
  e : Nat
  f : Nat
  g : Nat
  h : Nat
deriving Repr, DecidableEq

def round (st : Hash8) (kt wt : Nat) : Hash8 :=
  let t1 := w32 (st.h + bigSigma1 st.e + ch st.e st.f st.g + kt + wt)
  let t2 := w32 (bigSigma0 st.a + maj st.a st.b st.c)
  ⟨w32 (t1 + t2), st.a, st.b, st.c, w32 (st.d + t1), st.e, st.f, st.g⟩

def compressRounds : List Nat → List Nat → Hash8 → Hash8
  | k :: ks, w :: ws, st => compressRounds ks ws (round st k w)
  | _, _, st => st

def initH : Hash8 :=
  ⟨1779033703, 3144134277, 1013904242, 2773480762,
   1359893119, 2600822924, 528734635, 1541459225⟩

def compressBlock (st : Hash8) (block : List Nat) : Hash8 :=
  let r := compressRounds roundConstants (schedule block) st
  ⟨w32 (st.a + r.a), w32 (st.b + r.b), w32 (st.c + r.c), w32 (st.d + r.d),
   w32 (st.e + r.e), w32 (st.f + r.f), w32 (st.g + r.g), w32 (st.h + r.h)⟩

def sha256Words (msg : List Nat) : Hash8 :=
  (chunk64 (padBytes msg)).foldl compressBlock initH

def hexDigit (n : Nat) : Char :=
  if n < 10 then Char.ofNat (48 + n) else Char.ofNat (87 + n)

def word8Hex (x : Nat) : List Char :=
  [hexDigit (x / 2 ^ 28 % 16), hexDigit (x / 2 ^ 24 % 16), hexDigit (x / 2 ^ 20 % 16),
   hexDigit (x / 2 ^ 16 % 16), hexDigit (x / 2 ^ 12 % 16), hexDigit (x / 2 ^ 8 % 16),
   hexDigit (x / 2 ^ 4 % 16), hexDigit (x % 16)]

def sha256Hex (msg : List Nat) : String :=
  let st := sha256Words msg
  ⟨word8Hex st.a ++ word8Hex st.b ++ word8Hex st.c ++ word8Hex st.d ++
   word8Hex st.e ++ word8Hex st.f ++ word8Hex st.g ++ word8Hex st.h⟩

end SHA256

/-! ## Further Go standard-library helpers -/

/-- Whether the first list is an initial segment of the second. -/
def leadsWith : List Char → List Char → Bool
  | [], _ => true
  | _ :: _, [] => false
  | x :: xs, y :: ys => x == y && leadsWith xs ys

/-- Go `strings.HasPrefix(s, p)`.  (`String.startsWith` agrees but its
byte-position arithmetic reduces poorly; list traversal is used instead.) -/
def goStartsWith (s p : String) : Bool := leadsWith p.data s.data

/-- Go `strings.HasSuffix(s, p)`. -/
def goEndsWith (s p : String) : Bool := leadsWith p.data.reverse s.data.reverse

/-- Go `strings.Split(s, c)` (full split, single-character separator),
on character lists; never returns the empty list. -/
def goSplitAllChars (c : Char) : List Char → List (List Char)
  | [] => [[]]
  | x :: xs =>
    if x = c then [] :: goSplitAllChars c xs
    else
      match goSplitAllChars c xs with
      | s :: rest => (x :: s) :: rest
      | [] => [[x]]

/-- Go `strings.Split(s, c)` for a single-character separator. -/
def goSplitAllStr (s : String) (c : Char) : List String :=
  (goSplitAllChars c s.data).map (⟨·⟩)

/-- Go `filepath.Base`: `"."` for the empty path, trailing slashes
stripped, `"/"` when the path consists only of slashes, otherwise the part
after the final slash. -/
def filepathBase (path : String) : String :=
  if path = "" then "."
  else
    let trimmed := path.data.reverse.dropWhile (· == '/')
    if trimmed = [] then "/"
    else ⟨(trimmed.takeWhile (· != '/')).reverse⟩

/-- Go `filepath.Ext`: scan the path backwards until a separator; return
the suffix starting at the last dot of the final element, or `""`. -/
def goFilepathExtAux : List Char → List Char → String
  | [], _ => ""
  | c :: rest, acc =>
    if c = '/' then ""
    else if c = '.' then ⟨c :: acc⟩
    else goFilepathExtAux rest (c :: acc)

/-- Go `filepath.Ext` on a string path. -/
def goFilepathExt (path : String) : String := goFilepathExtAux path.data.reverse []

/-- Go `strings.ToLower`, restricted to ASCII case mapping (every file
extension the classifier compares against is ASCII; `Char.toLower` agrees
with Go on ASCII input). -/
def goToLower (s : String) : String := ⟨s.data.map Char.toLower⟩

/-- Go `strings.TrimLeft(s, ".")`: drop every leading dot. -/
def goTrimLeftDots (s : String) : String := ⟨s.data.dropWhile (· == '.')⟩

/-- The byte length of the UTF-8 encoding of `s`: Go `len(s)` for a
`string` holding valid UTF-8 (Terraform attribute values always are). -/
def goLen (s : String) : Nat := (s.data.map Char.utf8Size).sum

/-- Go `fmt.Sprintf("%-*v", width, s)`: left-justify `s`, padding on the
right with spaces up to `width` characters (Go counts the width in runes). -/
def goPadRight (width : Nat) (s : String) : String :=
  if s.length < width then s ++ ⟨List.replicate (width - s.length) ' '⟩ else s

/-- The path component of an `http(s)://` URL, as Go
`url.ParseRequestURI(u).Path` reports it for a well-formed URL: the part
after the scheme and authority, query string and fragment cut off.
(Percent-decoding is not modelled; no claim exercises it.) -/
def goURLPath (u : String) : String :=
  let rest :=
    if goStartsWith u "http://" then u.drop 7
    else if goStartsWith u "https://" then u.drop 8
    else u
  match strFindChar '/' rest.data with
  | none => ""
  | some (_, p) => ⟨('/' :: p).takeWhile (fun ch => ch != '?' && ch != '#')⟩

/-- Go `fmt` rendering of a `[]string` with the `%v` verb: `[a b c]`. -/
def goStringSliceFmt (l : List String) : String :=
  "[" ++ String.intercalate " " l ++ "]"

/-! ## Desired state and backend model

The dynamic `*schema.ResourceData` maps of file.go become typed records:
the `source_file` and `source_raw` one-element list blocks become
`Option`s of record types with the schema's fields (file.go lines
128-218), and the remaining top-level attributes keep their schema names.
The Proxmox client (`proxmox.Client`) is replaced by a record of the
results its calls would produce, so every backend interaction is explicit
and recorded in an event trace. -/

/-- The `source_file` block (schema lines 128-184). -/
structure SourceFileBlock where
  path : String
  checksum : String
  fileName : String
  insecure : Bool
  minTLS : String
deriving Repr, DecidableEq

/-- The `source_raw` block (schema lines 185-218). -/
structure SourceRawBlock where
  data : String
  fileName : String
  resize : Int
deriving Repr, DecidableEq

/-- The desired-state attributes of the file resource that the create /
read / delete logic consults. -/
structure FileResourceData where
  contentType : String
  datastoreID : String
  nodeName : String
  fileMode : String
  sourceFile : Option SourceFileBlock
  sourceRaw : Option SourceRawBlock
  overwrite : Bool
deriving Repr, DecidableEq

/-- `storage.DatastoreGetResponseData`, as used by lines 569-590:
the advertised filesystem path, the supported content list and the
storage name. -/
structure Datastore where
  path : Option String
  content : List String
  storage : String
deriving Repr, DecidableEq

/-- The storage backend and transports, abstracted as the results the
calls of `fileCreate` would observe. -/
structure Backend where
  listFilesResult : Except String (List String)
  supportsImportContentType : Bool
  httpGet : String → Except String (List Nat)
  localFiles : String → Option (List Nat)
  getDatastoreResult : Except String Datastore
  apiUploadResult : Except String Unit
  sshUploadResult : Except String Unit

/-- One externally visible I/O action of `fileCreate`, in program order. -/
inductive CreateEvent
  | versionQuery
  | listFiles
  | httpGet (url : String)
  | tempFileCreate
  | getDatastore
  | apiUpload (contentType fileName : String)
  | sshUpload (contentType fileName : String)
deriving Repr, DecidableEq

/-- The outcome of `fileCreate`: the I/O trace, the accumulated
diagnostics, and the resource ID passed to `d.SetId` (absent when the
operation failed before reaching it). -/
structure CreateResult where
  events : List CreateEvent
  diags : List Diagnostic
  newId : Option String
deriving Repr, DecidableEq

/-! ## Source helpers of file.go -/

/-- `fileIsURL` (file.go lines 749-762): the `source_file.path` attribute
is a URL when it carries an `http://` or `https://` scheme; without a
`source_file` block the answer is `false`. -/
def fileIsURL (sourceFile : Option SourceFileBlock) : Bool :=
  match sourceFile with
  | some sfb => goStartsWith sfb.path "http://" || goStartsWith sfb.path "https://"
  | none => false

/-- Error text of `fileGetSourceFileName` when neither source block is
present (file.go lines 702-706). -/
def missingSourcePathMsg : String := "missing argument \"source_file.path\""

/-- Error text of `fileGetSourceFileName` when a URL path ends in a slash
(file.go lines 720-723). -/
def urlFileNameErrMsg (path : String) : String :=
  s!"failed to determine file name from the URL \"{path}\""

/-- `fileGetSourceFileName` (file.go lines 687-731): an explicit
`file_name` override wins; otherwise the name is the final segment of the
URL path for URL sources (failing when empty), or `filepath.Base` of the
path for filesystem sources.  A `source_raw` block leaves the path empty,
so its (schema-required) `file_name` is used as-is. -/
def fileGetSourceFileNameAux (sourceFileFileName sourceFilePath : String)
    (isURL : Bool) : Except String String :=
  if sourceFileFileName = "" then
    if isURL then
      let segs := goSplitAllStr (goURLPath sourceFilePath) '/'
      let last := segs.getLastD ""
      if last = "" then .error (urlFileNameErrMsg sourceFilePath)
      else .ok last
    else .ok (filepathBase sourceFilePath)
  else .ok sourceFileFileName

/-- Dispatch of `fileGetSourceFileName` on the populated source block: a
`source_file` block contributes its override name and path; a
`source_raw` block contributes its (schema-required) name and leaves the
path empty, with `fileIsURL` then false. -/
def fileGetSourceFileName (sourceFile : Option SourceFileBlock)
    (sourceRaw : Option SourceRawBlock) : Except String String :=
  match sourceFile, sourceRaw with
  | some sfb, _ => fileGetSourceFileNameAux sfb.fileName sfb.path (fileIsURL (some sfb))
  | none, some srb => fileGetSourceFileNameAux srb.fileName "" false
  | none, none => .error missingSourcePathMsg

/-- Modelled from the spec: the fixed enumerated set of valid
classifications accepted by `validators.ContentType()` (the validators
package is not under src/); §4.3 lists disk-image, container-template,
backup, snippet, iso and import, which carry the on-wire names below. -/
def validContentTypes : List String :=
  ["backup", "dump", "images", "import", "iso", "snippets", "vztmpl"]

/-- Modelled from the spec: the diagnostics produced by
`validators.ContentType()` on a content-type value — empty for a member
of the enumerated set, a single error otherwise. -/
def fileContentTypeValidator (ct : String) : List Diagnostic :=
  if validContentTypes.contains ct then []
  else [errDiag s!"unknown content type {ct}"]

/-- Error text of `fileGetContentType` when neither source block is
present (file.go lines 645-650). -/
def missingSourceOrRawMsg : String :=
  "missing argument \"source_file.path\" or \"source_raw\""

/-- Error text of `fileGetContentType` when no suffix rule matches
(file.go lines 673-677). -/
def undeterminedContentTypeMsg (path : String) : String :=
  s!"cannot determine the content type of source \"{path}\" - Please manually define the \"content_type\" argument"

/-- The suffix-inference chain of `fileGetContentType` (file.go lines
652-670): `.tar.gz`/`.tar.xz` → `vztmpl`; else, when the backend version
supports the `import` content type, `.qcow2`/`.raw`/`.vmdk` → `import`;
else by lower-cased extension `img`/`iso` → `iso`, `yaml`/`yml` →
`snippets`; else no rule matches. -/
def fileInferContentType (sourceFilePath : String) (supportsImport : Bool) : Option String :=
  if goEndsWith sourceFilePath ".tar.gz" || goEndsWith sourceFilePath ".tar.xz" then
    some "vztmpl"
  else if supportsImport &&
      (goEndsWith sourceFilePath ".qcow2" || goEndsWith sourceFilePath ".raw" ||
        goEndsWith sourceFilePath ".vmdk") then
    some "import"
  else
    let ext := goTrimLeftDots (goToLower (goFilepathExt sourceFilePath))
    if ext = "img" || ext = "iso" then some "iso"
    else if ext = "yaml" || ext = "yml" then some "snippets"
    else none

/-- `fileGetContentType` (file.go lines 622-685): picks the inference
input — `source_file.path` when a `source_file` block exists, else
`source_raw.file_name` — applies the explicit `content_type` attribute or
the suffix inference, and runs the content-type validator on the result.
The version query that determines `supportsImport` happens inside this
function; the caller records it as a `versionQuery` event. -/
def fileGetContentTypeAux (contentTypeAttr sourceFilePath : String)
    (supportsImport : Bool) : Option String × List Diagnostic :=
  if contentTypeAttr = "" then
    match fileInferContentType sourceFilePath supportsImport with
    | some ct => (some ct, fileContentTypeValidator ct)
    | none => (none, [errDiag (undeterminedContentTypeMsg sourceFilePath)])
  else (some contentTypeAttr, fileContentTypeValidator contentTypeAttr)

/-- Dispatch of `fileGetContentType` on the populated source block (file.go
lines 636-651): the inference input is `source_file.path` when a
`source_file` block exists, else `source_raw.file_name`. -/
def fileGetContentType (contentTypeAttr : String) (sourceFile : Option SourceFileBlock)
    (sourceRaw : Option SourceRawBlock) (supportsImport : Bool) :
    Option String × List Diagnostic :=
  match sourceFile, sourceRaw with
  | some sfb, _ => fileGetContentTypeAux contentTypeAttr sfb.path supportsImport
  | none, some srb => fileGetContentTypeAux contentTypeAttr srb.fileName supportsImport
  | none, none => (none, [errDiag missingSourceOrRawMsg])

/-! ## The create path (file.go lines 321-619) -/

/-- Warning text for an overwritten file (file.go line 369); `%q` on a
`fmt.Stringer` quotes its `String()` rendering. -/
def fileOverwrittenWarning (v : fileVolumeID) : String :=
  s!"the existing file \"{v.String}\" has been overwritten by the resource"

/-- Error text for a name collision without overwrite (file.go line 372). -/
def fileExistsError (v : fileVolumeID) : String :=
  s!"file \"{v.String}\" already exists"

/-- Error text for a populated `source_file` and `source_raw` at once
(file.go lines 384-389). -/
def conflictingSourceMsg : String :=
  "please specify \"source_file.path\" or \"source_raw\" - not both"

/-- The collision loop of `fileCreate` (file.go lines 355-375): walk the
backend listing; entries whose volume ID fails to parse are skipped (only
logged); a parseable entry whose file name equals the target name is an
immediate `already exists` error when `overwrite` is false (discarding
earlier warnings, as `return diag.Errorf` does), or contributes an
overwrite warning when it is true. -/
def collisionScan (files : List String) (name : String) (overwrite : Bool) :
    Except String (List Diagnostic) :=
  match files with
  | [] => .ok []
  | f :: fs =>
    match fileParseVolumeID f with
    | .error _ => collisionScan fs name overwrite
    | .ok vid =>
      if vid.fileName = name then
        if overwrite then
          (collisionScan fs name overwrite).map (warnDiag (fileOverwrittenWarning vid) :: ·)
        else .error (fileExistsError vid)
      else collisionScan fs name overwrite

/-- Modelled from the spec: `api.GetMinTLSVersion` (the api package is not
under src/); the schema (file.go lines 172-178) documents the supported
values `1.0|1.1|1.2|1.3` with the empty string defaulting to 1.3. -/
def goGetMinTLSVersion (v : String) : Except String Unit :=
  if v = "" || v = "1.0" || v = "1.1" || v = "1.2" || v = "1.3" then .ok ()
  else .error s!"unsupported minimal TLS version {v}"

/-- Checksum-mismatch error text (file.go lines 485-489): it names the
calculated value first and the expected value second. -/
def checksumMismatchMsg (calculated expected : String) : String :=
  s!"the calculated SHA256 checksum \"{calculated}\" does not match source checksum \"{expected}\""

/-- The checksum block of `fileCreate` (file.go lines 462-491): when a
`checksum` attribute is present, hash the locally materialized bytes with
SHA-256, render as lowercase hex (`%x`), and fail unless it is exactly
(`!=` on strings, case-sensitively) the configured value. -/
def fileChecksumCheck (bytes : List Nat) (expected : String) : Option String :=
  if expected = "" then none
  else
    let calculated := SHA256.sha256Hex bytes
    if expected ≠ calculated then some (checksumMismatchMsg calculated expected)
    else none

/-- Resize error text (file.go line 504). -/
def resizeErrorMsg (dataLen : Nat) (resize : Int) : String :=
  s!"cannot resize {dataLen} bytes to {resize} bytes"

/-- The resize block of `fileCreate` (file.go lines 500-506): with a
positive `resize`, a payload of byte length at most `resize` is
left-justified space-padded to `resize` characters, and a strictly longer
payload is an error; a non-positive `resize` leaves the data unchanged. -/
def fileSourceRawResize (data : String) (resize : Int) : Except String String :=
  if 0 < resize then
    if (goLen data : Int) ≤ resize then .ok (goPadRight resize.toNat data)
    else .error (resizeErrorMsg (goLen data) resize)
  else .ok data

/-- Error text of a failed `os.Open` on a missing file, as Go renders it. -/
def openFileErrMsg (path : String) : String :=
  s!"open {path}: no such file or directory"

/-- The tail of `fileCreate` after a successful upload (file.go lines
605-611): `fileGetVolumeID` recomputes the source file name and content
type (performing a second version query), its diagnostics are appended,
and on success the canonical volume ID string is passed to `d.SetId`.
The subsequent `fileRead` refresh (line 613) re-reads remote state and is
modelled separately by `fileReadDrift`. -/
def fileCreateFinish (d : FileResourceData) (b : Backend) (evs : List CreateEvent)
    (diags : List Diagnostic) : CreateResult :=
  let evs := evs ++ [CreateEvent.versionQuery]
  match fileGetSourceFileName d.sourceFile d.sourceRaw with
  | .error e => ⟨evs, diags ++ [errDiag e], none⟩
  | .ok fn =>
    let ctRes :=
      fileGetContentType d.contentType d.sourceFile d.sourceRaw b.supportsImportContentType
    let diags := diags ++ ctRes.2
    if hasError diags then ⟨evs, diags, none⟩
    else
      match ctRes.1 with
      | none => ⟨evs, diags, none⟩
      | some ct => ⟨evs, diags, some (fileVolumeID.String ⟨d.datastoreID, ct, fn⟩)⟩

/-- The upload dispatch of `fileCreate` (file.go lines 550-603): content
types `iso`, `vztmpl` and `import` go through the structured API upload;
every other content type queries the datastore, requires its filesystem
path, warns (non-fatally) when the datastore does not advertise the
content type, remaps `backup` to `dump`, and streams over SSH. -/
def fileUploadStep (d : FileResourceData) (b : Backend) (fileName ct : String)
    (evs : List CreateEvent) (diags : List Diagnostic) : CreateResult :=
  if ct = "iso" || ct = "vztmpl" || ct = "import" then
    let evs := evs ++ [CreateEvent.apiUpload ct fileName]
    match b.apiUploadResult with
    | .error e => ⟨evs, diags ++ [errDiag e], none⟩
    | .ok _ => fileCreateFinish d b evs diags
  else
    let evs := evs ++ [CreateEvent.getDatastore]
    match b.getDatastoreResult with
    | .error e => ⟨evs, [errDiag s!"failed to get datastore: {e}"], none⟩
    | .ok ds =>
      if ds.path.getD "" = "" then
        ⟨evs, [errDiag "failed to determine the datastore path"], none⟩
      else
        let diags :=
          if ds.content.contains ct then diags
          else
            let fmtContent := goStringSliceFmt ds.content
            diags ++ [warnDiag s!"the datastore \"{ds.storage}\" does not support content type \"{ct}\"; supported content types are: {fmtContent}"]
        let ctReq := if ct = "backup" then "dump" else ct
        let evs := evs ++ [CreateEvent.sshUpload ctReq fileName]
        match b.sshUploadResult with
        | .error e => ⟨evs, diags ++ [errDiag e], none⟩
        | .ok _ => fileCreateFinish d b evs diags

/-- The `source_file` materialization of `fileCreate` (file.go lines
399-492): URL paths are validated for their TLS configuration and
downloaded into a temporary file; filesystem paths are used directly; the
checksum check runs on the local bytes; then the local file is opened and
uploaded. -/
def fileCreateSourceFile (d : FileResourceData) (b : Backend) (fileName ct : String)
    (evs : List CreateEvent) (diags : List Diagnostic) (sfb : SourceFileBlock) :
    CreateResult :=
  if fileIsURL (some sfb) then
    match goGetMinTLSVersion sfb.minTLS with
    | .error e => ⟨evs, [errDiag e], none⟩
    | .ok _ =>
      let evs := evs ++ [CreateEvent.httpGet sfb.path]
      match b.httpGet sfb.path with
      | .error e => ⟨evs, [errDiag e], none⟩
      | .ok body =>
        let evs := evs ++ [CreateEvent.tempFileCreate]
        match fileChecksumCheck body sfb.checksum with
        | some e => ⟨evs, [errDiag e], none⟩
        | none => fileUploadStep d b fileName ct evs diags
  else
    if sfb.checksum ≠ "" then
      match b.localFiles sfb.path with
      | none => ⟨evs, [errDiag (openFileErrMsg sfb.path)], none⟩
      | some body =>
        match fileChecksumCheck body sfb.checksum with
        | some e => ⟨evs, [errDiag e], none⟩
        | none => fileUploadStep d b fileName ct evs diags
    else
      match b.localFiles sfb.path with
      | none => ⟨evs, [errDiag (openFileErrMsg sfb.path)], none⟩
      | some _ => fileUploadStep d b fileName ct evs diags

/-- The `source_raw` materialization of `fileCreate` (file.go lines
495-533): apply the resize rule, write the payload to a temporary file,
and upload it. -/
def fileCreateSourceRaw (d : FileResourceData) (b : Backend) (fileName ct : String)
    (evs : List CreateEvent) (diags : List Diagnostic) (srb : SourceRawBlock) :
    CreateResult :=
  match fileSourceRawResize srb.data srb.resize with
  | .error e => ⟨evs, [errDiag e], none⟩
  | .ok _ =>
    let evs := evs ++ [CreateEvent.tempFileCreate]
    fileUploadStep d b fileName ct evs diags

/-- `fileCreate` (file.go lines 321-619).  Program order matters: the
source file name is resolved first, then `fileGetContentType` queries the
backend version, then the datastore listing is fetched and scanned for
name collisions, and only then is the conflicting-source configuration
check performed; materialization (download / temporary file), the
checksum check, and the upload all happen afterwards.  `return
diag.Errorf(...)` / `return diag.FromErr(err)` discard previously
accumulated warnings, which the early returns below reproduce. -/
def fileCreate (d : FileResourceData) (b : Backend) : CreateResult :=
  match fileGetSourceFileName d.sourceFile d.sourceRaw with
  | .error e => ⟨[], [errDiag e], none⟩
  | .ok fileName =>
    let ctRes :=
      fileGetContentType d.contentType d.sourceFile d.sourceRaw b.supportsImportContentType
    let evs := [CreateEvent.versionQuery, CreateEvent.listFiles]
    match b.listFilesResult with
    | .error e => ⟨evs, [errDiag e], none⟩
    | .ok files =>
      match collisionScan files fileName d.overwrite with
      | .error e => ⟨evs, [errDiag e], none⟩
      | .ok collisionWarns =>
        let diags := ctRes.2 ++ collisionWarns
        let diags :=
          if d.sourceFile.isSome && d.sourceRaw.isSome then
            diags ++ [errDiag conflictingSourceMsg]
          else diags
        if hasError diags then ⟨evs, diags, none⟩
        else
          let ct := ctRes.1.getD ""
          match d.sourceFile, d.sourceRaw with
          | some sfb, _ => fileCreateSourceFile d b fileName ct evs diags sfb
          | none, some srb => fileCreateSourceRaw d b fileName ct evs diags srb
          | none, none => ⟨evs, [errDiag (openFileErrMsg "")], none⟩

/-! ## The read path: drift detection (file.go lines 764-849)

`fileRead` locates the listing entry matching `d.Id()` and, when a
`source_file` block exists, fetches fresh metadata for the source path
(`readFile` for filesystem paths, `readURL` for URLs).  Lines 811-831
then update the recorded metadata and compute the `changed` flag.  The
Terraform plugin SDK's `ResourceData.Get` reads through its "set" field
reader, so a value written by `d.Set` earlier in the same operation is
what a later `d.Get` of the same attribute returns; the `lastFile*`
variables of lines 821-823 therefore observe the values just written by
the `d.Set` calls of lines 811-819 whenever that branch was taken. -/

/-- The metadata triple `(file_modification_date, file_size, file_tag)`
recorded in state and returned by `readFile` / `readURL`; unknown values
are the empty string / zero. -/
structure FileMeta where
  modificationDate : String
  size : Int
  tag : String
deriving Repr, DecidableEq

/-- The recorded-state update of `fileRead` (lines 811-819): the three
metadata attributes are overwritten with the freshly observed values
unless those are all empty/zero. -/
def fileReadMetaState (prev fresh : FileMeta) : FileMeta :=
  if fresh.modificationDate != "" || fresh.size != 0 || fresh.tag != "" then fresh
  else prev

/-- The `changed` flag computed by `fileRead` (lines 821-831): the
`lastFile*` values are read back from the resource data after the update
of lines 811-819, and `changed` is set when they are all non-empty/non-zero
and at least one differs from the freshly observed metadata. -/
def fileReadChanged (prev fresh : FileMeta) : Bool :=
  let last := fileReadMetaState prev fresh
  if last.modificationDate != "" && last.size != 0 && last.tag != "" then
    last.modificationDate != fresh.modificationDate || last.size != fresh.size ||
      last.tag != fresh.tag
  else false

/-- The drift decision as the specification states it (§4.5): `changed`
holds exactly when the previously recorded modification time, size and
tag are all non-empty/non-zero and at least one of them differs from the
freshly observed value. -/
def specDriftChanged (prev fresh : FileMeta) : Bool :=
  (prev.modificationDate != "" && prev.size != 0 && prev.tag != "") &&
    (prev.modificationDate != fresh.modificationDate || prev.size != fresh.size ||
      prev.tag != fresh.tag)

/-! ## The delete path (file.go lines 940-958) -/

/-- The outcome of `DeleteDatastoreFile` as `fileDelete` distinguishes it:
success, the `api.ErrResourceDoesNotExist` sentinel, or any other error. -/
inductive BackendDeleteResult
  | ok
  | notFound
  | failed (msg : String)
deriving Repr, DecidableEq

/-- `fileDelete` (file.go lines 940-958): a delete error other than
`ErrResourceDoesNotExist` is returned immediately — before `d.SetId("")`
is reached, so the resource ID survives; success and not-found both fall
through to `d.SetId("")`.  The result pairs the diagnostics with the
resource ID after the call. -/
def fileDelete (currentId : String) (r : BackendDeleteResult) :
    List Diagnostic × String :=
  match r with
  | .failed msg => ([errDiag msg], currentId)
  | _ => ([], "")

/-! ## Schema defaults (file.go lines 39-47, 225-230) -/

/-- `dvResourceVirtualEnvironmentFileOverwrite` (file.go line 45): the
schema default of the `overwrite` attribute. -/
def dvResourceVirtualEnvironmentFileOverwrite : Bool := true

/-- The value `d.Get("overwrite")` yields: the configured value when the
practitioner set one, otherwise the schema `Default` (standard Terraform
plugin SDK behaviour for a `TypeBool` attribute with a `Default`). -/
def resolveOverwrite (configured : Option Bool) : Bool :=
  configured.getD dvResourceVirtualEnvironmentFileOverwrite

/-! ## Specification-side definitions for refinement comparisons -/

/-- The classification vocabulary of the specification (§4.3). -/
inductive SpecClassification
  | containerTemplate
  | importDisk
  | isoImage
  | snippet
deriving Repr, DecidableEq

/-- The on-wire content-type name of each specification classification. -/
def SpecClassification.code : SpecClassification → String
  | .containerTemplate => "vztmpl"
  | .importDisk => "import"
  | .isoImage => "iso"
  | .snippet => "snippets"

/-- The inference rules exactly as claim C5 orders them: `.tar.gz` /
`.tar.xz` give container-template regardless of the capability flag;
otherwise, only with `supportsImportClassification`, `.qcow2` / `.raw` /
`.vmdk` give import; otherwise extension `img`/`iso` gives iso and
`yaml`/`yml` gives snippet; otherwise no rule matches. -/
def specClassify (name : String) (supportsImportClassification : Bool) :
    Option SpecClassification :=
  if goEndsWith name ".tar.gz" || goEndsWith name ".tar.xz" then
    some .containerTemplate
  else if supportsImportClassification &&
      (goEndsWith name ".qcow2" || goEndsWith name ".raw" || goEndsWith name ".vmdk") then
    some .importDisk
  else
    let ext := goTrimLeftDots (goToLower (goFilepathExt name))
    if ext = "img" || ext = "iso" then some .isoImage
    else if ext = "yaml" || ext = "yml" then some .snippet
    else none

/-! ## Claim C1 — drift decision -/

/-- Claim C1: on the specification's own example — previously recorded
`{mtime:"2024-01-01T00:00:00Z", size:10, tag:"t1"}` against freshly
observed `{mtime:"2024-01-02T00:00:00Z", size:10, tag:"t1"}` — the code
reports `changed = false`, because the `d.Set` calls of lines 811-819
overwrite the recorded metadata with the fresh values before lines
821-823 read them back, while the specified drift decision demands
`changed = true`.  The all-empty-baseline half of the claim does hold. -/
theorem c1_drift_code_divergence :
    fileReadChanged ⟨"2024-01-01T00:00:00Z", 10, "t1"⟩
        ⟨"2024-01-02T00:00:00Z", 10, "t1"⟩ = false
  ∧ specDriftChanged ⟨"2024-01-01T00:00:00Z", 10, "t1"⟩
        ⟨"2024-01-02T00:00:00Z", 10, "t1"⟩ = true
  ∧ (∀ fresh : FileMeta, fileReadChanged ⟨"", 0, ""⟩ fresh = false) := by
  refine ⟨by decide, by decide, ?_⟩
  intro fresh
  simp only [fileReadChanged, fileReadMetaState]
  by_cases h : (fresh.modificationDate != "" || fresh.size != 0 || fresh.tag != "") = true
  · simp [h]
  · simp only [h, if_false, Bool.not_eq_true] at *
    simp [h]

/-! ## Claim C4 — raw payload resize -/

/-- Claim C4 (as stated) is false: a payload already exactly
`resizeToBytes` bytes long is NOT rejected; the code pads it to its own
length, a successful no-op. -/
theorem c4_resize_equal_counterexample :
    fileSourceRawResize "ab" 2 = .ok "ab" ∧ goLen "ab" = 2 := by
  exact ⟨rfl, by decide⟩

theorem goLen_append (s t : String) : goLen (s ++ t) = goLen s + goLen t := by
  simp [goLen, String.data_append]

theorem goLen_spaces (k : Nat) : goLen ⟨List.replicate k ' '⟩ = k := by
  have h1 : ' '.utf8Size = 1 := rfl
  simp [goLen, List.map_replicate, h1]

/-- Claim C4, amended: with `resize > 0`, a payload of byte length at
most `resize` is padded on the right with spaces (failure requires the
payload to be strictly larger than `resize`), and for single-byte
(ASCII) payloads the padded result is exactly `resize` bytes long;
a strictly larger payload fails with the resize error. -/
theorem c4_resize_pads_or_fails (data : String) (resize : Int) (hpos : 0 < resize) :
    ((goLen data : Int) ≤ resize →
      fileSourceRawResize data resize = .ok (goPadRight resize.toNat data))
  ∧ ((goLen data : Int) ≤ resize → data.length = goLen data →
      (goLen (goPadRight resize.toNat data) : Int) = resize)
  ∧ (resize < (goLen data : Int) →
      fileSourceRawResize data resize = .error (resizeErrorMsg (goLen data) resize)) := by
  refine ⟨fun hle => ?_, fun hle hascii => ?_, fun hlt => ?_⟩
  · simp [fileSourceRawResize, hpos, hle]
  · have hr : (resize.toNat : Int) = resize := Int.toNat_of_nonneg hpos.le
    unfold goPadRight
    by_cases hlen : data.length < resize.toNat
    · rw [if_pos hlen, goLen_append, goLen_spaces]
      omega
    · rw [if_neg hlen]
      omega
  · simp [fileSourceRawResize, hpos, not_le.mpr hlt]

/-- Closed witness for the amended claim C4 at the specification's
example `RawPayload{data:"abc", resizeToBytes:5}`. -/
theorem c4_resize_witness :
    (0 : Int) < 5 ∧ fileSourceRawResize "abc" 5 = .ok "abc  " ∧ goLen "abc  " = 5 := by
  refine ⟨by decide, ?_, by decide⟩
  have h := (c4_resize_pads_or_fails "abc" 5 (by decide)).1 (by decide)
  rw [h]
  rfl

/-! ## Claim C5 — classification inference -/

/-- Claim C5 (as stated) is false in its input: the classifier consumes
the `source_file.path` attribute, not the resolved file name.  With path
`a.bin` and override name `b.iso`, the resolved file name is `b.iso`,
whose extension the claim's rules map to iso, yet `fileGetContentType`
fails with the undetermined-content-type error (naming the path). -/
theorem c5_resolved_name_counterexample :
    fileGetSourceFileName (some ⟨"a.bin", "", "b.iso", false, ""⟩) none = .ok "b.iso"
  ∧ specClassify "b.iso" false = some .isoImage
  ∧ fileGetContentType "" (some ⟨"a.bin", "", "b.iso", false, ""⟩) none false
      = (none, [errDiag (undeterminedContentTypeMsg "a.bin")]) := by
  refine ⟨rfl, by decide, by decide⟩

/-- Claim C5, amended: applied to its actual input — the source path
(for `source_file`) or the raw file name (for `source_raw`) — the
inference follows exactly the claimed priority order: `.tar.gz`/`.tar.xz`
give container-template (`vztmpl`) regardless of the capability flag;
else, only with import support, `.qcow2`/`.raw`/`.vmdk` give import; else
extension `img`/`iso` gives iso and `yaml`/`yml` gives snippet
(`snippets`); else no rule matches and `fileGetContentType` fails with
the undetermined-classification error. -/
theorem c5_inference_priority (name : String) (flag : Bool) :
    fileInferContentType name flag = (specClassify name flag).map SpecClassification.code
  ∧ (fileInferContentType name flag = none →
      fileGetContentType "" none (some ⟨"x", name, 0⟩) flag
        = (none, [errDiag (undeterminedContentTypeMsg name)])) := by
  constructor
  · by_cases h1 : (goEndsWith name ".tar.gz" || goEndsWith name ".tar.xz") = true
    · simp [fileInferContentType, specClassify, h1, SpecClassification.code]
    · by_cases h2 : (flag && (goEndsWith name ".qcow2" || goEndsWith name ".raw" ||
          goEndsWith name ".vmdk")) = true
      · simp [fileInferContentType, specClassify, h1, h2, SpecClassification.code]
      · by_cases h3 : goTrimLeftDots (goToLower (goFilepathExt name)) = "img" ∨
            goTrimLeftDots (goToLower (goFilepathExt name)) = "iso"
        · rcases h3 with h3 | h3 <;>
            simp [fileInferContentType, specClassify, h1, h2, h3, SpecClassification.code]
        · push_neg at h3
          by_cases h4 : goTrimLeftDots (goToLower (goFilepathExt name)) = "yaml" ∨
              goTrimLeftDots (goToLower (goFilepathExt name)) = "yml"
          · rcases h4 with h4 | h4 <;>
              simp [fileInferContentType, specClassify, h1, h2, h3.1, h3.2, h4,
                SpecClassification.code]
          · push_neg at h4
            simp [fileInferContentType, specClassify, h1, h2, h3.1, h3.2, h4.1, h4.2]
  · intro hnone
    simp [fileGetContentType, fileGetContentTypeAux, hnone]

/-! ## Claim C9 — delete idempotence -/

/-- Claim C9 (as stated) is false in its second half: when the backend
delete fails with an error other than not-found, `fileDelete` returns
before `d.SetId("")`, leaving the resource identity in place. -/
theorem c9_delete_error_counterexample :
    fileDelete "local:iso/debian.iso" (.failed "context deadline exceeded")
      = ([errDiag "context deadline exceeded"], "local:iso/debian.iso")
  ∧ "local:iso/debian.iso" ≠ "" := by
  exact ⟨rfl, by decide⟩

/-- Claim C9, amended: deleting an identity the backend reports as absent
succeeds (the not-found error is swallowed) and clears the identity, as
does a successful delete; any other backend error is returned as the
operation's failure and the identity survives. -/
theorem c9_delete_idempotent_amended :
    (∀ id : String, fileDelete id .notFound = ([], ""))
  ∧ (∀ id : String, fileDelete id .ok = ([], ""))
  ∧ (∀ id msg : String, fileDelete id (.failed msg) = ([errDiag msg], id)) :=
  ⟨fun _ => rfl, fun _ => rfl, fun _ _ => rfl⟩

/-! ## Claim C2 — checksum verification -/

/-- A `source_file` block carrying only a path and an expected checksum. -/
def c2SourceBlock (path checksum : String) : SourceFileBlock :=
  ⟨path, checksum, "", false, ""⟩

/-- A desired state with an explicit `iso` content type and a local
`source_file` source. -/
def c2Input (path checksum : String) : FileResourceData :=
  ⟨"iso", "local", "pve", "", some (c2SourceBlock path checksum), none, true⟩

/-- A backend with an empty listing whose local filesystem holds `bytes`
at `path`. -/
def c2Backend (path : String) (bytes : List Nat) : Backend :=
  ⟨.ok [], true, fun _ => .error "unexpected download",
   fun p => if p = path then some bytes else none,
   .error "unexpected datastore query", .ok (), .ok ()⟩

/-- Claim C2 (as stated) is false in its case-insensitivity: for the empty
file, the expected checksum given as UPPERCASE hex of the correct SHA-256
digest is rejected with the checksum-mismatch error, although it matches
the computed digest case-insensitively (`strings.ToLower` of it equals the
computed lowercase hex). -/
theorem c2_checksum_case_counterexample :
    fileCreate
        (c2Input "/tmp/empty.img"
          "E3B0C44298FC1C149AFBF4C8996FB92427AE41E4649B934CA495991B7852B855")
        (c2Backend "/tmp/empty.img" [])
      = ⟨[.versionQuery, .listFiles],
         [errDiag (checksumMismatchMsg
            "e3b0c44298fc1c149afbf4c8996fb92427ae41e4649b934ca495991b7852b855"
            "E3B0C44298FC1C149AFBF4C8996FB92427AE41E4649B934CA495991B7852B855")], none⟩
  ∧ goToLower "E3B0C44298FC1C149AFBF4C8996FB92427AE41E4649B934CA495991B7852B855"
      = SHA256.sha256Hex [] := by
  refine ⟨by decide, by decide⟩

/-- Claim C2, amended: the comparison is exact rather than
case-insensitive.  For every local path, payload and non-empty expected
checksum: when the expected value is exactly the lowercase hex SHA-256
digest of the file's bytes, create proceeds to the upload with no
diagnostics; otherwise create fails before any upload with the
checksum-mismatch error naming both the computed and the expected value. -/
theorem c2_checksum_exact_comparison (path checksum : String) (bytes : List Nat)
    (hne : checksum ≠ "")
    (hurl : (goStartsWith path "http://" || goStartsWith path "https://") = false) :
    (checksum = SHA256.sha256Hex bytes →
      (fileCreate (c2Input path checksum) (c2Backend path bytes)).diags = []
      ∧ CreateEvent.apiUpload "iso" (filepathBase path)
          ∈ (fileCreate (c2Input path checksum) (c2Backend path bytes)).events)
  ∧ (checksum ≠ SHA256.sha256Hex bytes →
      fileCreate (c2Input path checksum) (c2Backend path bytes)
        = ⟨[.versionQuery, .listFiles],
           [errDiag (checksumMismatchMsg (SHA256.sha256Hex bytes) checksum)], none⟩) := by
  constructor
  · intro hcs
    simp [fileCreate, c2Input, c2Backend, c2SourceBlock, fileGetSourceFileName,
      fileGetSourceFileNameAux, fileGetContentType, fileGetContentTypeAux,
      fileContentTypeValidator, collisionScan, hasError, hurl, fileIsURL,
      fileCreateSourceFile, fileChecksumCheck, hne, hcs, fileUploadStep,
      fileCreateFinish, validContentTypes]
  · intro hcs
    simp [fileCreate, c2Input, c2Backend, c2SourceBlock, fileGetSourceFileName,
      fileGetSourceFileNameAux, fileGetContentType, fileGetContentTypeAux,
      fileContentTypeValidator, collisionScan, hasError, hurl, fileIsURL,
      fileCreateSourceFile, fileChecksumCheck, hne, hcs, fileUploadStep,
      fileCreateFinish, validContentTypes]

/-- Closed witness for the amended claim C2: the correct lowercase SHA-256
checksum of the empty file is accepted and the upload is attempted. -/
theorem c2_checksum_exact_witness :
    "e3b0c44298fc1c149afbf4c8996fb92427ae41e4649b934ca495991b7852b855" ≠ ""
  ∧ ((fileCreate
        (c2Input "/tmp/empty.img"
          "e3b0c44298fc1c149afbf4c8996fb92427ae41e4649b934ca495991b7852b855")
        (c2Backend "/tmp/empty.img" [])).diags = []
      ∧ CreateEvent.apiUpload "iso" (filepathBase "/tmp/empty.img")
          ∈ (fileCreate
              (c2Input "/tmp/empty.img"
                "e3b0c44298fc1c149afbf4c8996fb92427ae41e4649b934ca495991b7852b855")
              (c2Backend "/tmp/empty.img" [])).events) :=
  ⟨by decide,
   (c2_checksum_exact_comparison "/tmp/empty.img"
      "e3b0c44298fc1c149afbf4c8996fb92427ae41e4649b934ca495991b7852b855" []
      (by decide) (by decide)).1 (by decide)⟩

/-! ## Claims C3, C6, C10 — create ordering, collisions, overwrite default -/

theorem hasError_append (l1 l2 : List Diagnostic) :
    hasError (l1 ++ l2) = (hasError l1 || hasError l2) := by
  simp [hasError]

theorem hasError_errDiag (m : String) : hasError [errDiag m] = true := rfl

/-- With `overwrite = false`, a listing containing a parseable entry whose
file name matches the target makes the collision scan fail with the
already-exists error of some matching identity. -/
theorem collisionScan_error_of_match (files : List String) (name : String)
    (h : ∃ f ∈ files, ∃ v, fileParseVolumeID f = .ok v ∧ v.fileName = name) :
    ∃ w, w.fileName = name ∧ collisionScan files name false = .error (fileExistsError w) := by
  induction files with
  | nil => simp at h
  | cons f fs ih =>
    obtain ⟨g, hg, v, hv, hvn⟩ := h
    rcases List.mem_cons.mp hg with heq | hgs
    · subst heq
      exact ⟨v, hvn, by simp [collisionScan, hv, hvn]⟩
    · cases hp : fileParseVolumeID f with
      | error e =>
        obtain ⟨w, hw, hscan⟩ := ih ⟨g, hgs, v, hv, hvn⟩
        exact ⟨w, hw, by simp [collisionScan, hp, hscan]⟩
      | ok v2 =>
        by_cases h2 : v2.fileName = name
        · exact ⟨v2, h2, by simp [collisionScan, hp, h2]⟩
        · obtain ⟨w, hw, hscan⟩ := ih ⟨g, hgs, v, hv, hvn⟩
          exact ⟨w, hw, by simp [collisionScan, hp, h2, hscan]⟩

/-- With `overwrite = true`, the collision scan always succeeds, yields
only warnings, and — when the listing contains a parseable same-named
entry — one of them is the overwrite warning of a matching identity. -/
theorem collisionScan_overwrite_ok (files : List String) (name : String) :
    ∃ ws, collisionScan files name true = .ok ws ∧ hasError ws = false
      ∧ ((∃ f ∈ files, ∃ v, fileParseVolumeID f = .ok v ∧ v.fileName = name) →
          ∃ w, w.fileName = name ∧ warnDiag (fileOverwrittenWarning w) ∈ ws) := by
  induction files with
  | nil =>
    refine ⟨[], rfl, rfl, ?_⟩
    rintro ⟨g, hg, -⟩
    simp at hg
  | cons f fs ih =>
    obtain ⟨ws, hws, hne, hmem⟩ := ih
    cases hp : fileParseVolumeID f with
    | error e =>
      refine ⟨ws, by simp [collisionScan, hp, hws], hne, ?_⟩
      rintro ⟨g, hg, v, hv, hvn⟩
      rcases List.mem_cons.mp hg with heq | hgs
      · subst heq
        rw [hp] at hv
        simp at hv
      · exact hmem ⟨g, hgs, v, hv, hvn⟩
    | ok v2 =>
      by_cases h2 : v2.fileName = name
      · refine ⟨warnDiag (fileOverwrittenWarning v2) :: ws, ?_, ?_, ?_⟩
        · simp [collisionScan, hp, h2, hws, Except.map]
        · show hasError (warnDiag (fileOverwrittenWarning v2) :: ws) = false
          simpa [hasError, warnDiag] using hne
        · intro _
          exact ⟨v2, h2, by simp⟩
      · refine ⟨ws, by simp [collisionScan, hp, h2, hws], hne, ?_⟩
        rintro ⟨g, hg, v, hv, hvn⟩
        rcases List.mem_cons.mp hg with heq | hgs
        · subst heq
          rw [hp] at hv
          injection hv with hv2
          subst hv2
          exact absurd hvn h2
        · exact hmem ⟨g, hgs, v, hv, hvn⟩

/-- A desired state whose `source_raw` block targets `name`, with an
explicit `iso` content type. -/
def collisionInput (name : String) (ow : Bool) : FileResourceData :=
  ⟨"iso", "local", "pve", "", none, some ⟨"collision-test-data", name, 0⟩, ow⟩

/-- A backend whose listing is `files` and whose uploads succeed. -/
def collisionBackend (files : List String) : Backend :=
  ⟨.ok files, true, fun _ => .error "unexpected download", fun _ => none,
   .error "unexpected datastore query", .ok (), .ok ()⟩

theorem ctValidator_iso : fileContentTypeValidator "iso" = [] := by decide

/-- Evaluation of `fileCreate` on a `collisionInput` desired state, as a
function of the collision-scan outcome. -/
theorem fileCreate_collision_reduce (name : String) (ow : Bool) (files : List String)
    (hname : name ≠ "") :
    fileCreate (collisionInput name ow) (collisionBackend files)
      = match collisionScan files name ow with
        | .error e => ⟨[.versionQuery, .listFiles], [errDiag e], none⟩
        | .ok ws =>
          if hasError ws then ⟨[.versionQuery, .listFiles], ws, none⟩
          else
            ⟨[.versionQuery, .listFiles, .tempFileCreate, .apiUpload "iso" name,
              .versionQuery], ws,
             some (fileVolumeID.String ⟨"local", "iso", name⟩)⟩ := by
  cases hscan : collisionScan files name ow with
  | error e =>
    simp [fileCreate, collisionInput, collisionBackend, fileGetSourceFileName,
      fileGetSourceFileNameAux, hname, hscan]
  | ok ws =>
    by_cases hw : hasError ws = true
    · simp [fileCreate, collisionInput, collisionBackend, fileGetSourceFileName,
        fileGetSourceFileNameAux, fileGetContentType, fileGetContentTypeAux,
        ctValidator_iso, hname, hscan, hw]
    · simp only [Bool.not_eq_true] at hw
      simp [fileCreate, collisionInput, collisionBackend, fileGetSourceFileName,
        fileGetSourceFileNameAux, fileGetContentType, fileGetContentTypeAux,
        ctValidator_iso, hname, hscan, hw, fileCreateSourceRaw, fileSourceRawResize,
        fileUploadStep, fileCreateFinish]

/-- Claim C6: when the backend listing contains a parseable entry whose
file name equals the target name, create with `overwrite = false` fails
with the already-exists error naming a colliding identity and performs no
upload (its whole event trace is the version query and the listing),
while create with `overwrite = true` proceeds to the upload and emits a
non-fatal warning naming an overwritten identity. -/
theorem c6_collision_check (files : List String) (f name : String) (v : fileVolumeID)
    (hname : name ≠ "") (hf : f ∈ files) (hp : fileParseVolumeID f = .ok v)
    (hvn : v.fileName = name) :
    (∃ w : fileVolumeID, w.fileName = name ∧
        fileCreate (collisionInput name false) (collisionBackend files)
          = ⟨[.versionQuery, .listFiles], [errDiag (fileExistsError w)], none⟩)
  ∧ (∃ w : fileVolumeID, w.fileName = name ∧
        warnDiag (fileOverwrittenWarning w)
          ∈ (fileCreate (collisionInput name true) (collisionBackend files)).diags)
  ∧ CreateEvent.apiUpload "iso" name
      ∈ (fileCreate (collisionInput name true) (collisionBackend files)).events
  ∧ hasError (fileCreate (collisionInput name true) (collisionBackend files)).diags
      = false := by
  have hex : ∃ g ∈ files, ∃ v2, fileParseVolumeID g = .ok v2 ∧ v2.fileName = name :=
    ⟨f, hf, v, hp, hvn⟩
  obtain ⟨w, hw, hscan⟩ := collisionScan_error_of_match files name hex
  obtain ⟨ws, hws, hwsne, hwmem⟩ := collisionScan_overwrite_ok files name
  obtain ⟨w2, hw2, hw2mem⟩ := hwmem hex
  have hred1 := fileCreate_collision_reduce name false files hname
  have hred2 := fileCreate_collision_reduce name true files hname
  rw [hscan] at hred1
  rw [hws] at hred2
  simp only [hwsne, Bool.false_eq_true, if_false] at hred2
  refine ⟨⟨w, hw, hred1⟩, ⟨w2, hw2, ?_⟩, ?_, ?_⟩
  · rw [hred2]
    exact hw2mem
  · rw [hred2]
    simp
  · rw [hred2]
    exact hwsne

/-- Closed witness for claim C6 at a one-entry listing. -/
theorem c6_collision_witness :
    ("debian.iso" : String) ≠ ""
  ∧ (∃ w : fileVolumeID, w.fileName = "debian.iso" ∧
        fileCreate (collisionInput "debian.iso" false)
            (collisionBackend ["local:iso/debian.iso"])
          = ⟨[.versionQuery, .listFiles], [errDiag (fileExistsError w)], none⟩)
  ∧ (∃ w : fileVolumeID, w.fileName = "debian.iso" ∧
        warnDiag (fileOverwrittenWarning w)
          ∈ (fileCreate (collisionInput "debian.iso" true)
              (collisionBackend ["local:iso/debian.iso"])).diags) := by
  have h := c6_collision_check ["local:iso/debian.iso"] "local:iso/debian.iso"
    "debian.iso" ⟨"local", "iso", "debian.iso"⟩ (by decide) (by simp) rfl rfl
  exact ⟨by decide, h.1, h.2.1⟩

/-- Claim C10: the `overwrite` attribute defaults to true, so a create
that leaves it unspecified proceeds past a same-named listing entry with
an overwrite warning and an upload instead of an already-exists error. -/
theorem c10_overwrite_default (files : List String) (f name : String) (v : fileVolumeID)
    (hname : name ≠ "") (hf : f ∈ files) (hp : fileParseVolumeID f = .ok v)
    (hvn : v.fileName = name) :
    resolveOverwrite none = true
  ∧ (∃ w : fileVolumeID, w.fileName = name ∧
        warnDiag (fileOverwrittenWarning w)
          ∈ (fileCreate (collisionInput name (resolveOverwrite none))
              (collisionBackend files)).diags)
  ∧ CreateEvent.apiUpload "iso" name
      ∈ (fileCreate (collisionInput name (resolveOverwrite none))
          (collisionBackend files)).events
  ∧ hasError (fileCreate (collisionInput name (resolveOverwrite none))
      (collisionBackend files)).diags = false := by
  have hex : ∃ g ∈ files, ∃ v2, fileParseVolumeID g = .ok v2 ∧ v2.fileName = name :=
    ⟨f, hf, v, hp, hvn⟩
  obtain ⟨ws, hws, hwsne, hwmem⟩ := collisionScan_overwrite_ok files name
  obtain ⟨w2, hw2, hw2mem⟩ := hwmem hex
  have hred := fileCreate_collision_reduce name true files hname
  rw [hws] at hred
  simp only [hwsne, Bool.false_eq_true, if_false] at hred
  have hro : resolveOverwrite none = true := rfl
  rw [hro, hred]
  refine ⟨rfl, ⟨w2, hw2, hw2mem⟩, by simp, hwsne⟩

/-- Closed witness for claim C10. -/
theorem c10_overwrite_default_witness :
    ("ubuntu.iso" : String) ≠ ""
  ∧ resolveOverwrite none = true
  ∧ (∃ w : fileVolumeID, w.fileName = "ubuntu.iso" ∧
        warnDiag (fileOverwrittenWarning w)
          ∈ (fileCreate (collisionInput "ubuntu.iso" (resolveOverwrite none))
              (collisionBackend ["local:iso/ubuntu.iso"])).diags) := by
  have h := c10_overwrite_default ["local:iso/ubuntu.iso"] "local:iso/ubuntu.iso"
    "ubuntu.iso" ⟨"local", "iso", "ubuntu.iso"⟩ (by decide) (by simp) rfl rfl
  exact ⟨by decide, h.1, h.2.1⟩

/-- Claim C3 (as stated) is false about I/O: on a desired state with both
source variants populated, `fileCreate` does return the
conflicting-source error without any download, temporary file or upload,
but its event trace already contains the backend version query and the
datastore listing — backend calls performed before the failure. -/
theorem c3_conflicting_source_io_counterexample :
    fileCreate
        ⟨"", "local", "pve", "", some ⟨"debian.iso", "", "", false, ""⟩,
          some ⟨"payload", "other.iso", 0⟩, true⟩
        (collisionBackend [])
      = ⟨[.versionQuery, .listFiles], [errDiag conflictingSourceMsg], none⟩
  ∧ CreateEvent.listFiles
      ∈ (fileCreate
          ⟨"", "local", "pve", "", some ⟨"debian.iso", "", "", false, ""⟩,
            some ⟨"payload", "other.iso", 0⟩, true⟩
          (collisionBackend [])).events := by
  refine ⟨by decide, by decide⟩

/-- Claim C3, amended: with both source variants populated (and the
preceding steps — name resolution, listing, collision scan — not
themselves failing), create fails with the conflicting-source
configuration error before any download, temporary-file creation or
upload; the backend version query and the listing do happen first. -/
theorem c3_conflicting_source_before_transfer (d : FileResourceData) (b : Backend)
    (sf : SourceFileBlock) (sr : SourceRawBlock) (name : String)
    (files : List String) (ws : List Diagnostic)
    (hsf : d.sourceFile = some sf) (hsr : d.sourceRaw = some sr)
    (hname : fileGetSourceFileName d.sourceFile d.sourceRaw = .ok name)
    (hlist : b.listFilesResult = .ok files)
    (hscan : collisionScan files name d.overwrite = .ok ws) :
    (fileCreate d b).events = [.versionQuery, .listFiles]
  ∧ errDiag conflictingSourceMsg ∈ (fileCreate d b).diags
  ∧ (fileCreate d b).newId = none := by
  have hsome : (d.sourceFile.isSome && d.sourceRaw.isSome) = true := by
    rw [hsf, hsr]
    rfl
  simp [fileCreate, hname, hlist, hscan, hsome, hasError_append, hasError_errDiag]

/-- Closed witness for the amended claim C3. -/
theorem c3_conflicting_source_witness :
    (fileCreate
        ⟨"", "local", "pve", "", some ⟨"a.iso", "", "", false, ""⟩,
          some ⟨"x", "b.iso", 0⟩, true⟩
        (collisionBackend [])).events = [.versionQuery, .listFiles]
  ∧ errDiag conflictingSourceMsg
      ∈ (fileCreate
          ⟨"", "local", "pve", "", some ⟨"a.iso", "", "", false, ""⟩,
            some ⟨"x", "b.iso", 0⟩, true⟩
          (collisionBackend [])).diags
  ∧ (fileCreate
      ⟨"", "local", "pve", "", some ⟨"a.iso", "", "", false, ""⟩,
        some ⟨"x", "b.iso", 0⟩, true⟩
      (collisionBackend [])).newId = none :=
  c3_conflicting_source_before_transfer _ (collisionBackend [])
    ⟨"a.iso", "", "", false, ""⟩ ⟨"x", "b.iso", 0⟩ "a.iso" [] []
    rfl rfl rfl rfl rfl

/-- Closed witness for the amended claim C5 at the specification's
example `unknown.xyz`: no rule matches and the classifier fails with the
undetermined-content-type error. -/
theorem c5_inference_priority_witness :
    fileGetContentType "" none (some ⟨"x", "unknown.xyz", 0⟩) false
      = (none, [errDiag (undeterminedContentTypeMsg "unknown.xyz")]) :=
  (c5_inference_priority "unknown.xyz" false).2 (by decide)
